import Mathlib

/-!
# vSphere session cache (`pkg/cloud/vsphere/context/session.go`)

A shallow embedding of `getOrCreateCachedSession`, `Session.FindByInstanceUUID`
and `Session.FindByUUID`.

* The package variable `sessionCache : map[string]Session` is a finite map from
  strings to `Session` values; it is embedded as its lookup function
  `String → Option Session`, and `sessionCache[k] = v` as `SessionCache.set`.
* The govmomi library (`soap.ParseURL`, `govmomi.NewClient`,
  `SessionManager.SessionIsActive`, `Finder.DatacenterOrDefault`,
  `SearchIndex.FindByUuid`) is not part of the repository: its behaviour is a
  parameter `Env W`, where `W` is the state of everything outside the process
  (the vCenter server, the network, the deadline of a Go context).
* Every library call is recorded, in program order, in `State.calls`, so that
  statements such as "no handshake is performed" can be expressed.
* `getOrCreateCachedSession` returns `&session`, the address of a local variable.
  Each execution of a declaration of `session` (lines 51 and 74) makes a new
  variable; `State.nextAddr` is the address the next one gets, and a returned
  `*Session` is a `Ptr`: that address together with the value of the variable.
* `sessionMU.Lock()` / `defer sessionMU.Unlock()` bracket the whole body of
  `getOrCreateCachedSession`; a single call is therefore embedded as one atomic
  state transformer.
-/

namespace VSphere

/-- Go `error` values built with `github.com/pkg/errors`. A format string and
its arguments are kept apart (the `%q` verb is not expanded). -/
inductive GoError where
  | new (msg : String)
  | errorf (format : String) (args : List String)
  | wrapf (cause : GoError) (format : String) (args : List String)
  deriving DecidableEq, Repr

/-- Go `*url.Userinfo` as built by `url.UserPassword`. -/
structure Userinfo where
  username : String
  password : String
  deriving DecidableEq, Repr

/-- Go `url.URL`: the parsed text and the `User` field, the only field
`getOrCreateCachedSession` writes. -/
structure URL where
  raw : String
  User : Option Userinfo
  deriving DecidableEq, Repr

/-- Go `url.UserPassword`. -/
def UserPassword (username password : String) : Userinfo :=
  ⟨username, password⟩

/-- Go `context.Context`, an identifier of the caller's deadline and cancellation
scope. -/
structure GoContext where
  id : Nat
  deriving DecidableEq, Repr

/-- A `*govmomi.Client` as returned by `govmomi.NewClient` (embedded `vim25`
client and `SessionManager` both set), with the `UserAgent` field that
`getOrCreateCachedSession` assigns through the pointer. -/
structure Client where
  handle : Nat
  UserAgent : String
  deriving DecidableEq, Repr

/-- A `*object.Datacenter`. -/
structure Datacenter where
  moref : String
  deriving DecidableEq, Repr

/-- A `*find.Finder`: the client it queries, the `all` flag given to
`find.NewFinder`, and the datacenter given to `SetDatacenter`. -/
structure Finder where
  client : Client
  all : Bool
  dc : Option Datacenter
  deriving DecidableEq, Repr

/-- Go `find.NewFinder`. -/
def NewFinder (client : Client) (all : Bool) : Finder :=
  { client := client, all := all, dc := none }

/-- Go `(*find.Finder).SetDatacenter`. -/
def Finder.SetDatacenter (f : Finder) (dc : Datacenter) : Finder :=
  { f with dc := some dc }

/-- An `object.Reference` to a managed object. -/
structure Reference where
  moref : String
  deriving DecidableEq, Repr

/-- The `Session` struct: three pointers, each of which may be nil. -/
structure Session where
  Client : Option Client
  Finder : Option Finder
  datacenter : Option Datacenter
  deriving DecidableEq, Repr

/-- A Go pointer `*T` to a variable: the address of the variable, and the value
the variable holds when the pointer is handed out. Two pointers are the same
pointer exactly when their addresses are equal. -/
structure Ptr (α : Type) where
  addr : Nat
  target : α
  deriving DecidableEq, Repr

/-- The part of `*MachineContext` that `getOrCreateCachedSession` reads: the
embedded Go context, `ctx.VSphereCluster.Spec.Server`,
`ctx.VSphereMachine.Spec.Datacenter`, and the values of `ctx.User()` and
`ctx.Pass()`. -/
structure MachineContext where
  Context : GoContext
  Server : String
  Datacenter : String
  User : String
  Pass : String
  deriving DecidableEq, Repr

/-- One call that leaves the package, with its arguments. -/
inductive Call where
  | SessionIsActive (ctx : GoContext) (c : Client)
  | ParseURL (s : String)
  | NewClient (ctx : GoContext) (u : URL) (insecure : Bool)
  | DatacenterOrDefault (ctx : GoContext) (f : Finder) (path : String)
  | FindByUuid (ctx : GoContext) (c : Client) (dc : Option Datacenter) (uuid : String)
      (vmSearch : Bool) (instanceUuid : Bool)
  | LogInfo (msg : String) (keysAndValues : List String)
  deriving DecidableEq, Repr

/-- The govmomi library and the constant `v1alpha3.GroupVersion.String()`, none of
which is defined in this repository. `W` is the state of the outside world; a
call that goes over the network reads and may change it. A successful
`NewClient` or `DatacenterOrDefault` yields a non-nil pointer, `ParseURL` may
yield a nil URL with a nil error (it does so on the empty string), and
`FindByUuid` yields a nil reference with a nil error when nothing matches. -/
structure Env (W : Type) where
  ParseURL : String → Except GoError (Option URL)
  NewClient : GoContext → URL → Bool → W → Except GoError Client × W
  SessionIsActive : GoContext → Client → W → (Bool × Option GoError) × W
  DatacenterOrDefault : GoContext → Finder → String → W → Except GoError Datacenter × W
  FindByUuid : GoContext → Client → Option Datacenter → String → Bool → Bool → W →
    Except GoError (Option Reference) × W
  GroupVersion : String

/-- The package variable `sessionCache`, a `map[string]Session`, as its lookup
function. -/
abbrev SessionCache := String → Option Session

/-- The empty map literal `map[string]Session{}`. -/
def SessionCache.empty : SessionCache := fun _ => none

/-- The map assignment `sessionCache[key] = session`. -/
def SessionCache.set (m : SessionCache) (key : String) (session : Session) : SessionCache :=
  fun k => if k = key then some session else m k

/-- Everything a call can read or change: the cache table, the outside world, the
log of calls made so far (oldest first), and the address that the next variable
whose address is taken will get (all variables made so far have smaller
addresses). -/
structure State (W : Type) where
  sessionCache : SessionCache
  world : W
  calls : List Call
  nextAddr : Nat

/-- Appends one call to the log. -/
def State.record {W : Type} (st : State W) (c : Call) : State W :=
  { st with calls := st.calls ++ [c] }

/-- Makes the variable of a declaration whose address is taken later: it gets the
address `st.nextAddr`. -/
def State.declare {W : Type} (st : State W) : State W :=
  { st with nextAddr := st.nextAddr + 1 }

/-- How a call of `getOrCreateCachedSession` ends: it returns the Go pair
`(*Session, error)`, or it panics on a nil pointer dereference. -/
inductive Outcome where
  | returned (session : Option (Ptr Session)) (err : Option GoError)
  | panicked
  deriving DecidableEq, Repr

/-- The local variable `sessionKey := server + ctx.User() + datacenter`
(session.go line 49). -/
def sessionKey (ctx : MachineContext) : String :=
  ctx.Server ++ ctx.User ++ ctx.Datacenter

/-- Lines 57 to 93 of `getOrCreateCachedSession`: the code that runs when the
lookup missed or the cached session is no longer active. The declaration
`session := Session{Client: client}` (line 74) makes the variable whose address
line 93 returns. -/
def createSession {W : Type} (env : Env W) (ctx : MachineContext) (st : State W) :
    Outcome × State W :=
  let server := ctx.Server
  let datacenter := ctx.Datacenter
  let st := st.record (.ParseURL server)
  match env.ParseURL server with
  | .error err =>
    (.returned none (some (.wrapf err "error parsing vSphere URL %q" [server])), st)
  | .ok none =>
    (.returned none (some (.errorf "error parsing vSphere URL %q" [server])), st)
  | .ok (some soapURL) =>
    let soapURL := { soapURL with User := some (UserPassword ctx.User ctx.Pass) }
    let st := st.record (.NewClient ctx.Context soapURL true)
    match env.NewClient ctx.Context soapURL true st.world with
    | (.error err, w) =>
      (.returned none (some (.wrapf err "error setting up new vSphere SOAP client" [])),
        { st with world := w })
    | (.ok client, w) =>
      let st := { st with world := w }
      let addr := st.nextAddr
      let st := st.declare
      let client := { client with UserAgent := env.GroupVersion }
      let finder := NewFinder client false
      let st := st.record (.DatacenterOrDefault ctx.Context finder datacenter)
      match env.DatacenterOrDefault ctx.Context finder datacenter st.world with
      | (.error err, w) =>
        (.returned none (some (.wrapf err "unable to find datacenter %q" [datacenter])),
          { st with world := w })
      | (.ok dc, w) =>
        let st := { st with world := w }
        let session : Session :=
          { Client := some client, Finder := some (finder.SetDatacenter dc),
            datacenter := some dc }
        let st := { st with sessionCache := st.sessionCache.set (sessionKey ctx) session }
        let st := st.record
          (.LogInfo "cached vSphere client session" ["server", server, "datacenter", datacenter])
        (.returned (some ⟨addr, session⟩) none, st)

/-- The function `getOrCreateCachedSession` (session.go lines 43 to 94), run
with the mutex held from entry to exit. The `if` statement of line 51 declares
the variable `session`, a copy of the map entry, whose address line 53 returns.
Reading `session.SessionManager` of a cached session whose `Client` is nil
dereferences a nil pointer. -/
def getOrCreateCachedSession {W : Type} (env : Env W) (ctx : MachineContext) (st : State W) :
    Outcome × State W :=
  let addr := st.nextAddr
  let st := st.declare
  match st.sessionCache (sessionKey ctx) with
  | some session =>
    match session.Client with
    | none => (.panicked, st)
    | some c =>
      let st := st.record (.SessionIsActive ctx.Context c)
      match env.SessionIsActive ctx.Context c st.world with
      | ((true, _), w) => (.returned (some ⟨addr, session⟩) none, { st with world := w })
      | ((false, _), w) => createSession env ctx { st with world := w }
  | none => createSession env ctx st

/-- The method `(*Session).FindByInstanceUUID` (session.go lines 97 to 108); the
result is the Go pair `(object.Reference, error)`. -/
def Session.FindByInstanceUUID {W : Type} (env : Env W) (s : Session) (ctx : GoContext)
    (uuid : String) (st : State W) : (Option Reference × Option GoError) × State W :=
  match s.Client with
  | none => ((none, some (.new "vSphere client is not initialized")), st)
  | some c =>
    let findFlag := true
    let st := st.record (.FindByUuid ctx c s.datacenter uuid true findFlag)
    match env.FindByUuid ctx c s.datacenter uuid true findFlag st.world with
    | (.error err, w) =>
      ((none, some (.wrapf err "error finding object by instance uuid %q" [uuid])),
        { st with world := w })
    | (.ok ref, w) => ((ref, none), { st with world := w })

/-- The method `(*Session).FindByUUID` (session.go lines 111 to 122). -/
def Session.FindByUUID {W : Type} (env : Env W) (s : Session) (ctx : GoContext)
    (uuid : String) (st : State W) : (Option Reference × Option GoError) × State W :=
  match s.Client with
  | none => ((none, some (.new "vSphere client is not initialized")), st)
  | some c =>
    let findFlag := false
    let st := st.record (.FindByUuid ctx c s.datacenter uuid true findFlag)
    match env.FindByUuid ctx c s.datacenter uuid true findFlag st.world with
    | (.error err, w) =>
      ((none, some (.wrapf err "error finding object by uuid %q" [uuid])),
        { st with world := w })
    | (.ok ref, w) => ((ref, none), { st with world := w })

/-- The number of `govmomi.NewClient` calls (handshakes) in a log. -/
def handshakes (calls : List Call) : Nat :=
  (calls.filter fun c => match c with
    | .NewClient _ _ _ => true
    | _ => false).length

/-! ## The values the creation code builds -/

/-- The URL that is handed to `govmomi.NewClient`: the parsed URL with the
credentials of the context attached (session.go line 65). -/
def dialURL (ctx : MachineContext) (soapURL : URL) : URL :=
  { soapURL with User := some (UserPassword ctx.User ctx.Pass) }

/-- The client of a new session: the one the handshake returned, with the user
agent set (session.go line 76). -/
def taggedClient {W : Type} (env : Env W) (client : Client) : Client :=
  { client with UserAgent := env.GroupVersion }

/-- The session that line 74 to 87 build from a new client and the resolved
datacenter. -/
def builtSession {W : Type} (env : Env W) (client : Client) (dc : Datacenter) : Session :=
  { Client := some (taggedClient env client),
    Finder := some ((NewFinder (taggedClient env client) false).SetDatacenter dc),
    datacenter := some dc }

/-! ## A fake vCenter, for evaluating the code on concrete inputs -/

/-- The state of the fake vCenter: the handle the next client gets, and the
handles of the sessions the server has expired. -/
structure FakeWorld where
  nextHandle : Nat
  expired : List Nat
  deriving DecidableEq, Repr

/-- A fake govmomi. The empty address parses to a nil URL, the address
`https://%` does not parse, every login succeeds, a session is active until its
handle is expired, the server has one datacenter, `dc1`, which is therefore the
default one as well, and one virtual machine exists. -/
def fakeEnv : Env FakeWorld where
  ParseURL := fun s =>
    if s = "" then .ok none
    else if s = "https://%" then .error (.new "invalid URL escape")
    else .ok (some { raw := s, User := some (UserPassword "" "") })
  NewClient := fun _ _ _ w =>
    (.ok { handle := w.nextHandle, UserAgent := "" }, { w with nextHandle := w.nextHandle + 1 })
  SessionIsActive := fun _ c w => ((!(w.expired.contains c.handle), none), w)
  DatacenterOrDefault := fun _ _ path w =>
    if path = "" ∨ path = "dc1" then (.ok ⟨"datacenter-1"⟩, w)
    else (.error (.new "datacenter not found"), w)
  FindByUuid := fun _ _ _ uuid _ instanceUuid w =>
    if uuid = "failure" then (.error (.new "connection reset"), w)
    else if uuid = "4207-b1" ∧ instanceUuid = true then (.ok (some ⟨"vm-42"⟩), w)
    else if uuid = "4207-c2" ∧ instanceUuid = false then (.ok (some ⟨"vm-42"⟩), w)
    else (.ok none, w)
  GroupVersion := "infrastructure.cluster.x-k8s.io/v1alpha3"

/-- The state of a process that has made no call yet, facing a fresh fake
vCenter. -/
def fakeInit : State FakeWorld :=
  { sessionCache := SessionCache.empty, world := { nextHandle := 1, expired := [] }, calls := [],
    nextAddr := 0 }

/-- The context of the scenario of the specification. -/
def ctxAdmin : MachineContext :=
  { Context := ⟨0⟩, Server := "https://vc.local", Datacenter := "dc1", User := "admin",
    Pass := "secret" }

/-- The session that a call builds against the fake vCenter when the handshake
yields client `n` and the datacenter is `dc1` or the default one. -/
def fakeSession (n : Nat) : Session :=
  { Client := some ⟨n, "infrastructure.cluster.x-k8s.io/v1alpha3"⟩,
    Finder := some ⟨⟨n, "infrastructure.cluster.x-k8s.io/v1alpha3"⟩, false, some ⟨"datacenter-1"⟩⟩,
    datacenter := some ⟨"datacenter-1"⟩ }

/-- The context `ctxAdmin` with another password and another Go context. -/
def ctxAdminRotated : MachineContext :=
  { ctxAdmin with Context := ⟨1⟩, Pass := "rotated" }

/-- A context that names a datacenter the fake vCenter does not have. -/
def ctxNoSuchDatacenter : MachineContext :=
  { ctxAdmin with Datacenter := "dc9" }

/-- The state after one call for `ctxAdmin` in a fresh process. -/
def fakeCached : State FakeWorld :=
  (getOrCreateCachedSession fakeEnv ctxAdmin fakeInit).2

/-- The state `fakeCached` after the server has expired the session of client 1. -/
def fakeExpired : State FakeWorld :=
  { fakeCached with world := { nextHandle := 2, expired := [1] } }

/-- User `admin` on the server `vc`. -/
def ctxShort : MachineContext :=
  { Context := ⟨2⟩, Server := "vc", Datacenter := "dc1", User := "admin", Pass := "secret" }

/-- User `vcadmin` with the server address left empty. -/
def ctxShifted : MachineContext :=
  { Context := ⟨3⟩, Server := "", Datacenter := "dc1", User := "vcadmin", Pass := "secret" }

/-- User `madmin` on the server `vc.example.co`. -/
def ctxCo : MachineContext :=
  { Context := ⟨4⟩, Server := "vc.example.co", Datacenter := "dc1", User := "madmin",
    Pass := "pw-co" }

/-- User `admin` on the server `vc.example.com`. -/
def ctxCom : MachineContext :=
  { Context := ⟨5⟩, Server := "vc.example.com", Datacenter := "dc1", User := "admin",
    Pass := "pw-com" }

/-- A session that was never connected. -/
def sessionZero : Session :=
  { Client := none, Finder := none, datacenter := none }

/-! ## The paths through the creation code -/

/-- `soap.ParseURL` fails: the error is wrapped and returned (lines 58 to 60). -/
theorem createSession_parse_error {W : Type} (env : Env W) (ctx : MachineContext) (st : State W)
    (err : GoError) (hp : env.ParseURL ctx.Server = .error err) :
    createSession env ctx st =
      (.returned none (some (.wrapf err "error parsing vSphere URL %q" [ctx.Server])),
        st.record (.ParseURL ctx.Server)) := by
  simp only [createSession, hp]

/-- `soap.ParseURL` yields a nil URL: an error is returned (lines 61 to 63). -/
theorem createSession_parse_nil {W : Type} (env : Env W) (ctx : MachineContext) (st : State W)
    (hp : env.ParseURL ctx.Server = .ok none) :
    createSession env ctx st =
      (.returned none (some (.errorf "error parsing vSphere URL %q" [ctx.Server])),
        st.record (.ParseURL ctx.Server)) := by
  simp only [createSession, hp]

/-- `govmomi.NewClient` fails: the error is wrapped and returned (lines 70 to 72). -/
theorem createSession_handshake_error {W : Type} (env : Env W) (ctx : MachineContext)
    (st : State W) (u : URL) (err : GoError) (w : W)
    (hp : env.ParseURL ctx.Server = .ok (some u))
    (hc : env.NewClient ctx.Context (dialURL ctx u) true st.world = (.error err, w)) :
    createSession env ctx st =
      (.returned none (some (.wrapf err "error setting up new vSphere SOAP client" [])),
        { ((st.record (.ParseURL ctx.Server)).record
            (.NewClient ctx.Context (dialURL ctx u) true)) with world := w }) := by
  simp only [dialURL] at hc
  simp only [createSession, hp, State.record, hc, dialURL]

/-- `DatacenterOrDefault` fails: the error is wrapped and returned (lines 83 to 85). -/
theorem createSession_datacenter_error {W : Type} (env : Env W) (ctx : MachineContext)
    (st : State W) (u : URL) (client : Client) (err : GoError) (w1 w2 : W)
    (hp : env.ParseURL ctx.Server = .ok (some u))
    (hc : env.NewClient ctx.Context (dialURL ctx u) true st.world = (.ok client, w1))
    (hd : env.DatacenterOrDefault ctx.Context (NewFinder (taggedClient env client) false)
      ctx.Datacenter w1 = (.error err, w2)) :
    createSession env ctx st =
      (.returned none (some (.wrapf err "unable to find datacenter %q" [ctx.Datacenter])),
        { sessionCache := st.sessionCache,
          world := w2,
          calls := st.calls ++ [.ParseURL ctx.Server] ++
            [.NewClient ctx.Context (dialURL ctx u) true] ++
            [.DatacenterOrDefault ctx.Context (NewFinder (taggedClient env client) false)
              ctx.Datacenter],
          nextAddr := st.nextAddr + 1 }) := by
  simp only [dialURL] at hc
  simp only [taggedClient] at hd
  simp only [createSession, hp, State.record, State.declare, hc, hd, dialURL, taggedClient]

/-- All three steps succeed: the session is built, stored under the key, logged, and
the address of the variable that holds it is returned (lines 74 to 93). -/
theorem createSession_success {W : Type} (env : Env W) (ctx : MachineContext)
    (st : State W) (u : URL) (client : Client) (dc : Datacenter) (w1 w2 : W)
    (hp : env.ParseURL ctx.Server = .ok (some u))
    (hc : env.NewClient ctx.Context (dialURL ctx u) true st.world = (.ok client, w1))
    (hd : env.DatacenterOrDefault ctx.Context (NewFinder (taggedClient env client) false)
      ctx.Datacenter w1 = (.ok dc, w2)) :
    createSession env ctx st =
      (.returned (some ⟨st.nextAddr, builtSession env client dc⟩) none,
        { sessionCache := st.sessionCache.set (sessionKey ctx) (builtSession env client dc),
          world := w2,
          calls := st.calls ++ [.ParseURL ctx.Server] ++
            [.NewClient ctx.Context (dialURL ctx u) true] ++
            [.DatacenterOrDefault ctx.Context (NewFinder (taggedClient env client) false)
              ctx.Datacenter] ++
            [.LogInfo "cached vSphere client session"
              ["server", ctx.Server, "datacenter", ctx.Datacenter]],
          nextAddr := st.nextAddr + 1 }) := by
  simp only [dialURL] at hc
  simp only [taggedClient] at hd
  simp only [createSession, hp, State.record, State.declare, hc, hd, dialURL, taggedClient,
    builtSession]

/-- On the creation path a server address that does not parse, or parses to a nil
URL, gives the error `error parsing vSphere URL` and keeps the table. -/
theorem createSession_invalid_endpoint {W : Type} (env : Env W) (ctx : MachineContext)
    (st : State W)
    (hbad : env.ParseURL ctx.Server = .ok none ∨ ∃ cause, env.ParseURL ctx.Server = .error cause) :
    ((createSession env ctx st).1 =
          .returned none (some (.errorf "error parsing vSphere URL %q" [ctx.Server])) ∨
        ∃ cause, (createSession env ctx st).1 =
          .returned none (some (.wrapf cause "error parsing vSphere URL %q" [ctx.Server]))) ∧
      (createSession env ctx st).2.sessionCache = st.sessionCache := by
  rcases hbad with hnil | ⟨cause, hcause⟩
  · rw [createSession_parse_nil env ctx st hnil]
    exact ⟨Or.inl rfl, rfl⟩
  · rw [createSession_parse_error env ctx st cause hcause]
    exact ⟨Or.inr ⟨cause, rfl⟩, rfl⟩

/-! ## How a call ends, and what it does to the table -/

/-- The creation path either returns an error and keeps the table, or returns a
pointer to a new variable and stores the session it holds under the key of the
context. -/
theorem createSession_cases {W : Type} (env : Env W) (ctx : MachineContext) (st : State W) :
    (∃ e, (createSession env ctx st).1 = .returned none (some e) ∧
        (createSession env ctx st).2.sessionCache = st.sessionCache) ∨
    (∃ p, (createSession env ctx st).1 = .returned (some p) none ∧ p.target.Client ≠ none ∧
        (createSession env ctx st).2.sessionCache =
          st.sessionCache.set (sessionKey ctx) p.target ∧
        st.nextAddr ≤ p.addr ∧ p.addr < (createSession env ctx st).2.nextAddr) := by
  cases hp : env.ParseURL ctx.Server with
  | error err => rw [createSession_parse_error env ctx st err hp]; exact Or.inl ⟨_, rfl, rfl⟩
  | ok ou =>
    cases ou with
    | none => rw [createSession_parse_nil env ctx st hp]; exact Or.inl ⟨_, rfl, rfl⟩
    | some u =>
      rcases hc : env.NewClient ctx.Context (dialURL ctx u) true st.world with ⟨rc, w1⟩
      cases rc with
      | error err =>
        rw [createSession_handshake_error env ctx st u err w1 hp hc]
        exact Or.inl ⟨_, rfl, rfl⟩
      | ok client =>
        rcases hd : env.DatacenterOrDefault ctx.Context (NewFinder (taggedClient env client) false)
          ctx.Datacenter w1 with ⟨rd, w2⟩
        cases rd with
        | error err =>
          rw [createSession_datacenter_error env ctx st u client err w1 w2 hp hc hd]
          exact Or.inl ⟨_, rfl, rfl⟩
        | ok dc =>
          rw [createSession_success env ctx st u client dc w1 w2 hp hc hd]
          exact Or.inr ⟨_, rfl, by simp [builtSession], rfl, le_refl _, Nat.lt_succ_self _⟩

/-- The lookup missed: the call is the creation path. -/
theorem getOrCreateCachedSession_miss {W : Type} (env : Env W) (ctx : MachineContext)
    (st : State W) (hm : st.sessionCache (sessionKey ctx) = none) :
    getOrCreateCachedSession env ctx st = createSession env ctx st.declare := by
  simp only [getOrCreateCachedSession, State.declare, hm]

/-- The lookup found a session whose client is nil: the call panics. -/
theorem getOrCreateCachedSession_nil_client {W : Type} (env : Env W) (ctx : MachineContext)
    (st : State W) (s : Session) (hs : st.sessionCache (sessionKey ctx) = some s)
    (hc : s.Client = none) :
    getOrCreateCachedSession env ctx st = (.panicked, st.declare) := by
  simp only [getOrCreateCachedSession, State.declare, hs, hc]

/-- The lookup found a session and the probe reports it active: the call returns
the address of its copy of that session, and the probe is the only call made. -/
theorem getOrCreateCachedSession_hit {W : Type} (env : Env W) (ctx : MachineContext)
    (st : State W) (s : Session) (c : Client) (e : Option GoError) (w : W)
    (hs : st.sessionCache (sessionKey ctx) = some s) (hc : s.Client = some c)
    (ha : env.SessionIsActive ctx.Context c st.world = ((true, e), w)) :
    getOrCreateCachedSession env ctx st =
      (.returned (some ⟨st.nextAddr, s⟩) none,
        { sessionCache := st.sessionCache, world := w,
          calls := st.calls ++ [.SessionIsActive ctx.Context c],
          nextAddr := st.nextAddr + 1 }) := by
  simp only [getOrCreateCachedSession, State.declare, hs, hc, State.record, ha]

/-- The lookup found a session and the probe reports it inactive: the call goes
on with the creation path. -/
theorem getOrCreateCachedSession_stale {W : Type} (env : Env W) (ctx : MachineContext)
    (st : State W) (s : Session) (c : Client) (e : Option GoError) (w : W)
    (hs : st.sessionCache (sessionKey ctx) = some s) (hc : s.Client = some c)
    (ha : env.SessionIsActive ctx.Context c st.world = ((false, e), w)) :
    getOrCreateCachedSession env ctx st =
      createSession env ctx
        { sessionCache := st.sessionCache, world := w,
          calls := st.calls ++ [.SessionIsActive ctx.Context c],
          nextAddr := st.nextAddr + 1 } := by
  simp only [getOrCreateCachedSession, State.declare, hs, hc, State.record, ha]

/-- A call panics and keeps the table, or returns an error and keeps the table,
or returns a pointer to a new variable that holds a session: the cached one with
the table kept, or a new one stored under the key of the context. -/
theorem getOrCreateCachedSession_cases {W : Type} (env : Env W) (ctx : MachineContext)
    (st : State W) :
    ((getOrCreateCachedSession env ctx st).1 = .panicked ∧
        (getOrCreateCachedSession env ctx st).2.sessionCache = st.sessionCache) ∨
    (∃ e, (getOrCreateCachedSession env ctx st).1 = .returned none (some e) ∧
        (getOrCreateCachedSession env ctx st).2.sessionCache = st.sessionCache) ∨
    (∃ p, (getOrCreateCachedSession env ctx st).1 = .returned (some p) none ∧
        p.target.Client ≠ none ∧
        ((getOrCreateCachedSession env ctx st).2.sessionCache = st.sessionCache ∧
            st.sessionCache (sessionKey ctx) = some p.target ∨
         (getOrCreateCachedSession env ctx st).2.sessionCache =
            st.sessionCache.set (sessionKey ctx) p.target) ∧
        st.nextAddr ≤ p.addr ∧ p.addr < (getOrCreateCachedSession env ctx st).2.nextAddr) := by
  cases hs : st.sessionCache (sessionKey ctx) with
  | none =>
    rw [getOrCreateCachedSession_miss env ctx st hs]
    rcases createSession_cases env ctx st.declare with ⟨e, h1, h2⟩ | ⟨p, h1, hc, h2, h3, h4⟩
    · exact Or.inr (Or.inl ⟨e, h1, h2⟩)
    · exact Or.inr (Or.inr ⟨p, h1, hc, Or.inr h2, le_trans (Nat.le_succ _) h3, h4⟩)
  | some s =>
    cases hc : s.Client with
    | none =>
      rw [getOrCreateCachedSession_nil_client env ctx st s hs hc]
      exact Or.inl ⟨rfl, rfl⟩
    | some c =>
      rcases ha : env.SessionIsActive ctx.Context c st.world with ⟨⟨b, e⟩, w⟩
      cases b with
      | true =>
        rw [getOrCreateCachedSession_hit env ctx st s c e w hs hc ha]
        exact Or.inr (Or.inr ⟨⟨st.nextAddr, s⟩, rfl, by simp [hc], Or.inl ⟨rfl, rfl⟩,
          le_refl _, Nat.lt_succ_self _⟩)
      | false =>
        rw [getOrCreateCachedSession_stale env ctx st s c e w hs hc ha]
        rcases createSession_cases env ctx
          { sessionCache := st.sessionCache, world := w,
            calls := st.calls ++ [.SessionIsActive ctx.Context c],
            nextAddr := st.nextAddr + 1 } with
          ⟨e, h1, h2⟩ | ⟨p, h1, hc2, h2, h3, h4⟩
        · exact Or.inr (Or.inl ⟨e, h1, h2⟩)
        · exact Or.inr (Or.inr ⟨p, h1, hc2, Or.inr h2, le_trans (Nat.le_succ _) h3, h4⟩)

/-- A call that returned a pointer left the session it points to in the table under
the key of its context; that session has a client, and the variable pointed to
is one of those made so far. -/
theorem getOrCreateCachedSession_stored {W : Type} (env : Env W) (ctx : MachineContext)
    (st : State W) (p : Ptr Session)
    (hok : (getOrCreateCachedSession env ctx st).1 = .returned (some p) none) :
    (getOrCreateCachedSession env ctx st).2.sessionCache (sessionKey ctx) = some p.target ∧
      (∃ c, p.target.Client = some c) ∧
      p.addr < (getOrCreateCachedSession env ctx st).2.nextAddr := by
  rcases getOrCreateCachedSession_cases env ctx st with
    ⟨h1, _⟩ | ⟨_, h1, _⟩ | ⟨p2, h1, hc, h2, _, h4⟩
  · rw [h1] at hok; cases hok
  · rw [h1] at hok; cases hok
  · rw [h1] at hok
    cases hok
    refine ⟨?_, Option.ne_none_iff_exists'.mp hc, h4⟩
    rcases h2 with ⟨h2, h3⟩ | h2
    · rw [h2, h3]
    · rw [h2]; simp [SessionCache.set]

/-! ## The claims -/

/-- C1. If `getOrCreateCachedSession` returns an error, whichever step produced it
(a URL that does not parse, a nil URL, the handshake, the datacenter lookup), the
cache table after the call is the table before the call. -/
theorem getOrCreateCachedSession_error_keeps_table {W : Type} (env : Env W)
    (ctx : MachineContext) (st : State W) (s : Option (Ptr Session)) (e : GoError)
    (herr : (getOrCreateCachedSession env ctx st).1 = .returned s (some e)) :
    (getOrCreateCachedSession env ctx st).2.sessionCache = st.sessionCache := by
  rcases getOrCreateCachedSession_cases env ctx st with
    ⟨h1, _⟩ | ⟨_, _, h2⟩ | ⟨p, h1, _, _⟩
  · rw [h1] at herr; cases herr
  · exact h2
  · rw [h1] at herr; cases herr

/-- C1, evaluated: with a session already cached for `dc1`, a call that names the
missing datacenter `dc9` fails in the datacenter lookup, after a handshake, and
the table is the one before the call. -/
theorem getOrCreateCachedSession_error_keeps_table_witness :
    (getOrCreateCachedSession fakeEnv ctxNoSuchDatacenter fakeCached).1 =
        .returned none
          (some (.wrapf (.new "datacenter not found") "unable to find datacenter %q" ["dc9"])) ∧
      (getOrCreateCachedSession fakeEnv ctxNoSuchDatacenter fakeCached).2.sessionCache =
        fakeCached.sessionCache :=
  ⟨by decide,
    getOrCreateCachedSession_error_keeps_table fakeEnv ctxNoSuchDatacenter fakeCached none
      (.wrapf (.new "datacenter not found") "unable to find datacenter %q" ["dc9"]) (by decide)⟩

/-- C2 as stated fails where it asks for the same `Session` instance. In a fresh
process the first call for `ctxAdmin` returns the address of the variable of
line 74, the probe of the stored session then reports active, and the second
call returns the address of the variable of line 51, a copy of the map entry:
the two pointers are different pointers, to equal `Session` values. -/
theorem getOrCreateCachedSession_second_call_new_pointer :
    (getOrCreateCachedSession fakeEnv ctxAdmin fakeInit).1 =
        .returned (some ⟨1, fakeSession 1⟩) none ∧
      (fakeEnv.SessionIsActive ctxAdmin.Context ⟨1, "infrastructure.cluster.x-k8s.io/v1alpha3"⟩
        (getOrCreateCachedSession fakeEnv ctxAdmin fakeInit).2.world).1.1 = true ∧
      (getOrCreateCachedSession fakeEnv ctxAdmin
        (getOrCreateCachedSession fakeEnv ctxAdmin fakeInit).2).1 =
        .returned (some ⟨2, fakeSession 1⟩) none ∧
      (getOrCreateCachedSession fakeEnv ctxAdmin
        (getOrCreateCachedSession fakeEnv ctxAdmin fakeInit).2).1 ≠
        (getOrCreateCachedSession fakeEnv ctxAdmin fakeInit).1 :=
  ⟨by decide, by decide, by decide, by decide⟩

/-- C2, amended. If a first call returns a pointer to a session and the liveness
probe of that session then reports active, a second call for the same server,
user and datacenter returns a pointer to another variable, which holds a copy of
the cached session: a `Session` equal, field by field, to the one the first call
returned. The second call keeps the table, and makes one library call only, the
probe: no URL is parsed, no handshake is made, no datacenter is resolved. -/
theorem getOrCreateCachedSession_second_call_hits {W : Type} (env : Env W)
    (ctx ctx2 : MachineContext) (st : State W) (p : Ptr Session)
    (hserver : ctx2.Server = ctx.Server) (huser : ctx2.User = ctx.User)
    (hdatacenter : ctx2.Datacenter = ctx.Datacenter)
    (hfirst : (getOrCreateCachedSession env ctx st).1 = .returned (some p) none)
    (hlive : ∀ c, p.target.Client = some c →
      (env.SessionIsActive ctx2.Context c (getOrCreateCachedSession env ctx st).2.world).1.1
        = true) :
    (∃ p2, (getOrCreateCachedSession env ctx2 (getOrCreateCachedSession env ctx st).2).1 =
          .returned (some p2) none ∧
        p2.target = p.target ∧ p2.addr ≠ p.addr) ∧
      (getOrCreateCachedSession env ctx2 (getOrCreateCachedSession env ctx st).2).2.sessionCache =
        (getOrCreateCachedSession env ctx st).2.sessionCache ∧
      ∃ c, p.target.Client = some c ∧
        (getOrCreateCachedSession env ctx2 (getOrCreateCachedSession env ctx st).2).2.calls =
          (getOrCreateCachedSession env ctx st).2.calls ++ [.SessionIsActive ctx2.Context c] := by
  obtain ⟨hstored, ⟨c, hc⟩, haddr⟩ := getOrCreateCachedSession_stored env ctx st p hfirst
  have hkey : sessionKey ctx2 = sessionKey ctx := by
    simp only [sessionKey, hserver, huser, hdatacenter]
  rw [← hkey] at hstored
  have hl := hlive c hc
  rcases ha : env.SessionIsActive ctx2.Context c (getOrCreateCachedSession env ctx st).2.world
    with ⟨⟨b, e⟩, w⟩
  rw [ha] at hl
  simp only at hl
  subst hl
  rw [getOrCreateCachedSession_hit env ctx2 _ p.target c e w hstored hc ha]
  exact ⟨⟨_, rfl, rfl, (Nat.ne_of_lt haddr).symm⟩, rfl, c, hc, rfl⟩

/-- C2 amended, evaluated: the scenario of the specification, two calls for
`https://vc.local`, `admin`, `dc1` in a fresh process. -/
theorem getOrCreateCachedSession_second_call_hits_witness :
    (∃ p2, (getOrCreateCachedSession fakeEnv ctxAdmin
          (getOrCreateCachedSession fakeEnv ctxAdmin fakeInit).2).1 =
          .returned (some p2) none ∧
        p2.target = fakeSession 1 ∧ p2.addr ≠ 1) ∧
      (getOrCreateCachedSession fakeEnv ctxAdmin
        (getOrCreateCachedSession fakeEnv ctxAdmin fakeInit).2).2.sessionCache =
        (getOrCreateCachedSession fakeEnv ctxAdmin fakeInit).2.sessionCache ∧
      ∃ c, (fakeSession 1).Client = some c ∧
        (getOrCreateCachedSession fakeEnv ctxAdmin
          (getOrCreateCachedSession fakeEnv ctxAdmin fakeInit).2).2.calls =
          (getOrCreateCachedSession fakeEnv ctxAdmin fakeInit).2.calls ++
            [.SessionIsActive ctxAdmin.Context c] :=
  getOrCreateCachedSession_second_call_hits fakeEnv ctxAdmin ctxAdmin fakeInit
    ⟨1, fakeSession 1⟩ rfl rfl rfl (by decide) (by intro c hc; cases hc; decide)

/-- C3. The table holds `S1` under the key of the context, the liveness probe of
`S1` reports false, and then the parse, the handshake and the datacenter lookup
succeed. The call makes exactly one handshake, returns a pointer to the session
`S2` built from the new client and the resolved datacenter, and stores `S2`: the
table maps the key to `S2`, and not to `S1` (the new client is another client
than the one of `S1`). -/
theorem getOrCreateCachedSession_replaces_stale {W : Type} (env : Env W)
    (ctx : MachineContext) (st : State W) (S1 : Session) (c1 c2 : Client)
    (e : Option GoError) (u : URL) (dc : Datacenter) (w0 w1 w2 : W)
    (hS1 : st.sessionCache (sessionKey ctx) = some S1) (hc1 : S1.Client = some c1)
    (hprobe : env.SessionIsActive ctx.Context c1 st.world = ((false, e), w0))
    (hparse : env.ParseURL ctx.Server = .ok (some u))
    (hshake : env.NewClient ctx.Context (dialURL ctx u) true w0 = (.ok c2, w1))
    (hdc : env.DatacenterOrDefault ctx.Context (NewFinder (taggedClient env c2) false)
      ctx.Datacenter w1 = (.ok dc, w2))
    (hfresh : c1.handle ≠ c2.handle) :
    (getOrCreateCachedSession env ctx st).1 =
        .returned (some ⟨st.nextAddr + 1, builtSession env c2 dc⟩) none ∧
      handshakes (getOrCreateCachedSession env ctx st).2.calls = handshakes st.calls + 1 ∧
      (getOrCreateCachedSession env ctx st).2.sessionCache (sessionKey ctx) =
        some (builtSession env c2 dc) ∧
      (getOrCreateCachedSession env ctx st).2.sessionCache (sessionKey ctx) ≠ some S1 := by
  rw [getOrCreateCachedSession_stale env ctx st S1 c1 e w0 hS1 hc1 hprobe,
    createSession_success env ctx _ u c2 dc w1 w2 hparse hshake hdc]
  refine ⟨rfl, ?_, ?_, ?_⟩
  · simp [handshakes, List.filter_append]
  · simp [SessionCache.set]
  · simp only [SessionCache.set, if_true, ne_eq, Option.some.injEq]
    intro h
    rw [← h] at hc1
    simp only [builtSession, taggedClient, Option.some.injEq] at hc1
    exact hfresh (by rw [← hc1])

/-- C3, evaluated: the server has expired the session of client 1; the next call
for the same context logs in again and caches the session of client 2. -/
theorem getOrCreateCachedSession_replaces_stale_witness :
    (getOrCreateCachedSession fakeEnv ctxAdmin fakeExpired).1 =
        .returned (some ⟨fakeExpired.nextAddr + 1,
          builtSession fakeEnv ⟨2, ""⟩ ⟨"datacenter-1"⟩⟩) none ∧
      handshakes (getOrCreateCachedSession fakeEnv ctxAdmin fakeExpired).2.calls =
        handshakes fakeExpired.calls + 1 ∧
      (getOrCreateCachedSession fakeEnv ctxAdmin fakeExpired).2.sessionCache (sessionKey ctxAdmin) =
        some (builtSession fakeEnv ⟨2, ""⟩ ⟨"datacenter-1"⟩) ∧
      (getOrCreateCachedSession fakeEnv ctxAdmin fakeExpired).2.sessionCache (sessionKey ctxAdmin) ≠
        some (fakeSession 1) :=
  getOrCreateCachedSession_replaces_stale fakeEnv ctxAdmin fakeExpired (fakeSession 1)
    ⟨1, "infrastructure.cluster.x-k8s.io/v1alpha3"⟩ ⟨2, ""⟩ none
    ⟨"https://vc.local", some ⟨"", ""⟩⟩ ⟨"datacenter-1"⟩
    ⟨2, [1]⟩ ⟨3, [1]⟩ ⟨3, [1]⟩ (by decide) rfl (by decide) rfl rfl rfl (by decide)

/-- C4, evaluated at the failing input. The context `ctxShifted` has an empty
server address, which `ParseURL` turns into a nil URL, and in a fresh process a
call with it returns the error `error parsing vSphere URL`, as the claim says.
After a call for `ctxShort` (user `admin` on server `vc`) has cached a session
under the key `vcadmindc1`, which is the key of `ctxShifted` as well, the call
with `ctxShifted` returns a pointer to that session and no error. -/
theorem getOrCreateCachedSession_empty_server_returns_session :
    ctxShifted.Server = "" ∧
      fakeEnv.ParseURL ctxShifted.Server = .ok none ∧
      (getOrCreateCachedSession fakeEnv ctxShifted fakeInit).1 =
        .returned none (some (.errorf "error parsing vSphere URL %q" [""])) ∧
      sessionKey ctxShort = "vcadmindc1" ∧
      sessionKey ctxShifted = "vcadmindc1" ∧
      (getOrCreateCachedSession fakeEnv ctxShort fakeInit).1 =
        .returned (some ⟨1, fakeSession 1⟩) none ∧
      (getOrCreateCachedSession fakeEnv ctxShifted
        (getOrCreateCachedSession fakeEnv ctxShort fakeInit).2).1 =
        .returned (some ⟨2, fakeSession 1⟩) none :=
  ⟨rfl, rfl, by decide, by decide, by decide, by decide, by decide⟩

/-- C5. The key does not depend on the password: two contexts with the same
server, user and datacenter have the same key whatever their passwords, and when
the table holds a session under that key whose liveness probe reports active,
a call with either context returns (a pointer to a copy of) that session and
keeps the table. -/
theorem sessionKey_ignores_password (ctx1 ctx2 : MachineContext)
    (hserver : ctx1.Server = ctx2.Server) (huser : ctx1.User = ctx2.User)
    (hdatacenter : ctx1.Datacenter = ctx2.Datacenter) :
    sessionKey ctx1 = sessionKey ctx2 ∧
      ∀ (W : Type) (env : Env W) (st : State W) (s : Session) (c : Client),
        st.sessionCache (sessionKey ctx1) = some s → s.Client = some c →
        (env.SessionIsActive ctx1.Context c st.world).1.1 = true →
        (env.SessionIsActive ctx2.Context c st.world).1.1 = true →
        (getOrCreateCachedSession env ctx1 st).1 = .returned (some ⟨st.nextAddr, s⟩) none ∧
          (getOrCreateCachedSession env ctx2 st).1 = .returned (some ⟨st.nextAddr, s⟩) none ∧
          (getOrCreateCachedSession env ctx1 st).2.sessionCache = st.sessionCache ∧
          (getOrCreateCachedSession env ctx2 st).2.sessionCache = st.sessionCache := by
  have hkey : sessionKey ctx1 = sessionKey ctx2 := by
    simp only [sessionKey, hserver, huser, hdatacenter]
  refine ⟨hkey, ?_⟩
  intro W env st s c hs hc h1 h2
  have hs2 := hs
  rw [hkey] at hs2
  rcases ha1 : env.SessionIsActive ctx1.Context c st.world with ⟨⟨b1, e1⟩, w1⟩
  rcases ha2 : env.SessionIsActive ctx2.Context c st.world with ⟨⟨b2, e2⟩, w2⟩
  rw [ha1] at h1
  rw [ha2] at h2
  simp only at h1 h2
  subst h1
  subst h2
  rw [getOrCreateCachedSession_hit env ctx1 st s c e1 w1 hs hc ha1,
    getOrCreateCachedSession_hit env ctx2 st s c e2 w2 hs2 hc ha2]
  exact ⟨rfl, rfl, rfl, rfl⟩

/-- C5, evaluated: `ctxAdmin` and `ctxAdminRotated` differ in their passwords,
have one key, and both get the session cached by the first login. -/
theorem sessionKey_ignores_password_witness :
    ctxAdmin.Pass ≠ ctxAdminRotated.Pass ∧
      sessionKey ctxAdmin = sessionKey ctxAdminRotated ∧
      (getOrCreateCachedSession fakeEnv ctxAdmin fakeCached).1 =
        .returned (some ⟨fakeCached.nextAddr, fakeSession 1⟩) none ∧
      (getOrCreateCachedSession fakeEnv ctxAdminRotated fakeCached).1 =
        .returned (some ⟨fakeCached.nextAddr, fakeSession 1⟩) none ∧
      (getOrCreateCachedSession fakeEnv ctxAdmin fakeCached).2.sessionCache =
        fakeCached.sessionCache ∧
      (getOrCreateCachedSession fakeEnv ctxAdminRotated fakeCached).2.sessionCache =
        fakeCached.sessionCache :=
  ⟨by decide, (sessionKey_ignores_password ctxAdmin ctxAdminRotated rfl rfl rfl).1,
    (sessionKey_ignores_password ctxAdmin ctxAdminRotated rfl rfl rfl).2 FakeWorld fakeEnv
      fakeCached (fakeSession 1) ⟨1, "infrastructure.cluster.x-k8s.io/v1alpha3"⟩
      (by decide) rfl (by decide) (by decide)⟩

/-- C6. On a session whose `Client` is nil, `FindByInstanceUUID` and `FindByUUID`
return a nil reference and the error `vSphere client is not initialized`, and the
state, with its log of library calls, is the one before the call: no lookup is
sent. -/
theorem Session_find_without_client {W : Type} (env : Env W) (s : Session) (ctx : GoContext)
    (uuid : String) (st : State W) (hnil : s.Client = none) :
    Session.FindByInstanceUUID env s ctx uuid st =
        ((none, some (.new "vSphere client is not initialized")), st) ∧
      Session.FindByUUID env s ctx uuid st =
        ((none, some (.new "vSphere client is not initialized")), st) := by
  simp only [Session.FindByInstanceUUID, Session.FindByUUID, hnil, and_self]

/-- C6, evaluated on a session that was never connected. -/
theorem Session_find_without_client_witness :
    Session.FindByInstanceUUID fakeEnv sessionZero ⟨0⟩ "4207-b1" fakeCached =
        ((none, some (.new "vSphere client is not initialized")), fakeCached) ∧
      Session.FindByUUID fakeEnv sessionZero ⟨0⟩ "4207-b1" fakeCached =
        ((none, some (.new "vSphere client is not initialized")), fakeCached) :=
  Session_find_without_client fakeEnv sessionZero ⟨0⟩ "4207-b1" fakeCached rfl

/-- C7. On a session with a client, `FindByInstanceUUID` sends one lookup by
instance UUID in the datacenter of the session, and `FindByUUID` one lookup by
UUID. When the lookup does not fail, each returns the reference the lookup
yields, nil included, and a nil error; when it fails, each returns a nil
reference and an error that wraps the cause; and each returns a nil reference
with a non-nil error exactly when the lookup fails. -/
theorem Session_find_follows_lookup {W : Type} (env : Env W) (s : Session) (c : Client)
    (ctx : GoContext) (uuid : String) (st : State W) (hc : s.Client = some c) :
    ((∀ ref, (env.FindByUuid ctx c s.datacenter uuid true true st.world).1 = .ok ref →
          (Session.FindByInstanceUUID env s ctx uuid st).1 = (ref, none)) ∧
        (∀ cause, (env.FindByUuid ctx c s.datacenter uuid true true st.world).1 = .error cause →
          (Session.FindByInstanceUUID env s ctx uuid st).1 =
            (none, some (.wrapf cause "error finding object by instance uuid %q" [uuid]))) ∧
        ((∃ err, (Session.FindByInstanceUUID env s ctx uuid st).1 = (none, some err)) ↔
          ∃ cause, (env.FindByUuid ctx c s.datacenter uuid true true st.world).1 = .error cause) ∧
        (Session.FindByInstanceUUID env s ctx uuid st).2.calls =
          st.calls ++ [.FindByUuid ctx c s.datacenter uuid true true]) ∧
      ((∀ ref, (env.FindByUuid ctx c s.datacenter uuid true false st.world).1 = .ok ref →
          (Session.FindByUUID env s ctx uuid st).1 = (ref, none)) ∧
        (∀ cause, (env.FindByUuid ctx c s.datacenter uuid true false st.world).1 = .error cause →
          (Session.FindByUUID env s ctx uuid st).1 =
            (none, some (.wrapf cause "error finding object by uuid %q" [uuid]))) ∧
        ((∃ err, (Session.FindByUUID env s ctx uuid st).1 = (none, some err)) ↔
          ∃ cause, (env.FindByUuid ctx c s.datacenter uuid true false st.world).1 = .error cause) ∧
        (Session.FindByUUID env s ctx uuid st).2.calls =
          st.calls ++ [.FindByUuid ctx c s.datacenter uuid true false]) := by
  constructor
  · rcases h : env.FindByUuid ctx c s.datacenter uuid true true st.world with ⟨r, w⟩
    cases r with
    | error cause => simp [Session.FindByInstanceUUID, hc, State.record, h]
    | ok ref => simp [Session.FindByInstanceUUID, hc, State.record, h]
  · rcases h : env.FindByUuid ctx c s.datacenter uuid true false st.world with ⟨r, w⟩
    cases r with
    | error cause => simp [Session.FindByUUID, hc, State.record, h]
    | ok ref => simp [Session.FindByUUID, hc, State.record, h]

/-- C7, evaluated on the cached session: the instance UUID `4207-b1` belongs to
`vm-42`; no object has the UUID `4207-b1`, and that is a nil reference with a nil
error; a lookup that fails is returned wrapped. -/
theorem Session_find_follows_lookup_witness :
    (Session.FindByInstanceUUID fakeEnv (fakeSession 1) ⟨0⟩ "4207-b1" fakeCached).1 =
        (some ⟨"vm-42"⟩, none) ∧
      (Session.FindByUUID fakeEnv (fakeSession 1) ⟨0⟩ "4207-b1" fakeCached).1 = (none, none) ∧
      (Session.FindByUUID fakeEnv (fakeSession 1) ⟨0⟩ "failure" fakeCached).1 =
        (none, some (.wrapf (.new "connection reset") "error finding object by uuid %q"
          ["failure"])) :=
  ⟨(Session_find_follows_lookup fakeEnv (fakeSession 1)
      ⟨1, "infrastructure.cluster.x-k8s.io/v1alpha3"⟩ ⟨0⟩ "4207-b1" fakeCached rfl).1.1 _ rfl,
    (Session_find_follows_lookup fakeEnv (fakeSession 1)
      ⟨1, "infrastructure.cluster.x-k8s.io/v1alpha3"⟩ ⟨0⟩ "4207-b1" fakeCached rfl).2.1 _ rfl,
    (Session_find_follows_lookup fakeEnv (fakeSession 1)
      ⟨1, "infrastructure.cluster.x-k8s.io/v1alpha3"⟩ ⟨0⟩ "failure" fakeCached rfl).2.2.1 _ rfl⟩

/-- C9. A call, whether it returns a session, returns an error or panics, changes
at most the table entry under its own key: the lookup of any other key is the
same after the call as before. -/
theorem getOrCreateCachedSession_frame {W : Type} (env : Env W) (ctx : MachineContext)
    (st : State W) (k : String) (hk : k ≠ sessionKey ctx) :
    (getOrCreateCachedSession env ctx st).2.sessionCache k = st.sessionCache k := by
  rcases getOrCreateCachedSession_cases env ctx st with
    ⟨_, h2⟩ | ⟨_, _, h2⟩ | ⟨p, _, _, ⟨h2, _⟩ | h2, _⟩
  · rw [h2]
  · rw [h2]
  · rw [h2]
  · rw [h2]
    simp only [SessionCache.set, hk, if_false]

/-- C9, evaluated: a login to `vc.example.com` stores a new session and leaves the
entry of `https://vc.local` as it was. -/
theorem getOrCreateCachedSession_frame_witness :
    (getOrCreateCachedSession fakeEnv ctxCom fakeCached).2.sessionCache (sessionKey ctxCom) =
        some (fakeSession 2) ∧
      (getOrCreateCachedSession fakeEnv ctxCom fakeCached).2.sessionCache (sessionKey ctxAdmin) =
        fakeCached.sessionCache (sessionKey ctxAdmin) :=
  ⟨by decide,
    getOrCreateCachedSession_frame fakeEnv ctxCom fakeCached (sessionKey ctxAdmin) (by decide)⟩

/-- C10, evaluated. The contexts `ctxCo` (user `madmin` on `vc.example.co`) and
`ctxCom` (user `admin` on `vc.example.com`) differ in server and in user, and
both have the key `vc.example.comadmindc1`. In a fresh process a call for `ctxCo`
logs in to `vc.example.co`; the call for `ctxCom` that follows makes no
handshake and returns a pointer to the session of `vc.example.co`. -/
theorem sessionKey_collision :
    (ctxCo.Server, ctxCo.User, ctxCo.Datacenter) ≠ (ctxCom.Server, ctxCom.User, ctxCom.Datacenter) ∧
      sessionKey ctxCo = "vc.example.comadmindc1" ∧
      sessionKey ctxCom = "vc.example.comadmindc1" ∧
      (getOrCreateCachedSession fakeEnv ctxCo fakeInit).1 =
        .returned (some ⟨1, fakeSession 1⟩) none ∧
      (getOrCreateCachedSession fakeEnv ctxCom
        (getOrCreateCachedSession fakeEnv ctxCo fakeInit).2).1 =
        .returned (some ⟨2, fakeSession 1⟩) none ∧
      (getOrCreateCachedSession fakeEnv ctxCom
        (getOrCreateCachedSession fakeEnv ctxCo fakeInit).2).2.calls =
        [.ParseURL "vc.example.co",
          .NewClient ⟨4⟩ ⟨"vc.example.co", some ⟨"madmin", "pw-co"⟩⟩ true,
          .DatacenterOrDefault ⟨4⟩
            ⟨⟨1, "infrastructure.cluster.x-k8s.io/v1alpha3"⟩, false, none⟩ "dc1",
          .LogInfo "cached vSphere client session"
            ["server", "vc.example.co", "datacenter", "dc1"],
          .SessionIsActive ⟨5⟩ ⟨1, "infrastructure.cluster.x-k8s.io/v1alpha3"⟩] := by
  refine ⟨by decide, by decide, by decide, by decide, by decide, by decide⟩

end VSphere
